import Mathlib

/-!
Verification of the bil_hh_agent authentication backend.

The development shallowly embeds the three core components of the
repository:

* the per-unit-of-work session context (`src/backend/db/db.py` and
  `src/backend/engines/db.py`: `DBContext.get_session`, `DBContext.reset`,
  the `DBContext.transaction` decorator) and the transaction middleware
  (`src/backend/middlewares/tx.py`: `TxMiddleware.dispatch`);
* the user store (`src/backend/repositories/user.py` and
  `src/repositories/user.py`: `UserRepository.save`,
  `UserRepository.get_by_username`), which both revisions implement
  identically as an upsert keyed on email plus a point lookup by username,
  with every SQLAlchemyError converted to a `None` return;
* the auth service (`src/backend/services/auth.py` and
  `src/services/auth.py`: `AuthService.register`, `AuthService.login`).

Sessions are modelled by opaque natural-number handles produced by a
counter (the injected session factory), and the effects performed on a
session (factory invocation, commit, rollback, close) are recorded in an
event log.  Machine-level details that the claims do not touch (actual SQL,
network, async scheduling) are abstracted away; the control flow of every
embedded function follows the Python source line by line.
-/

/-- An observable effect on a database session handle: the session factory
producing handle `sid`, or `commit` / `rollback` / `close` being awaited on
handle `sid`. -/
inductive SessEvent where
  | factory (sid : Nat)
  | commit (sid : Nat)
  | rollback (sid : Nat)
  | close (sid : Nat)

deriving instance DecidableEq for SessEvent

/-- State of one `DBContext`: the ContextVar holding the current session
(`_session_ctx` in `src/backend/db/db.py`, `_current_session` in
`src/backend/engines/db.py`), the next handle the session factory will
produce, and the log of session events so far. -/
structure SessState where
  current : Option Nat
  nextId : Nat
  log : List SessEvent

deriving instance DecidableEq for SessState

/-- `DBContext.get_session` (`src/backend/db/db.py` lines 22 to 33 and
`src/backend/engines/db.py` lines 32 to 41): return the session stored in
the ContextVar, or, when none is stored, call the injected factory, store
the new session, and return it. -/
def get_session (st : SessState) : Nat × SessState :=
  match st.current with
  | some s => (s, st)
  | none =>
      (st.nextId,
        { current := some st.nextId, nextId := st.nextId + 1,
          log := st.log ++ [SessEvent.factory st.nextId] })

/-- `DBContext.reset` (`src/backend/db/db.py` lines 35 to 41): clear the
ContextVar so a later unit of work does not see a stale session. -/
def reset (st : SessState) : SessState :=
  { st with current := none }

/-- The visible behaviour of one wrapped operation when run with a given
session handle: the value it returns or the exception it raises
(`Except.error` carries the exception), the session events it performs, and
the ContextVar value it leaves behind. -/
structure OpRun (α : Type) where
  result : Except String α
  events : List SessEvent
  curAfter : Option Nat

/-- An operation handed to the transaction scope: a function of the session
handle it is given. -/
def Op (α : Type) : Type := Nat → OpRun α

/-- The `DBContext.transaction` decorator (`src/backend/engines/db.py`
lines 43 to 70).  With no current session it creates one through
`get_session`, runs the operation, and in the `finally` block clears the
ContextVar and closes the session — whether the operation returned or
raised.  With a session already present (nested call) the operation runs
against it and the wrapper touches nothing else. -/
def transaction (op : Op α) (st : SessState) : Except String α × SessState :=
  match st.current with
  | some s =>
      let r := op s
      (r.result, { st with log := st.log ++ r.events, current := r.curAfter })
  | none =>
      let s := st.nextId
      let r := op s
      (r.result,
        { current := none, nextId := st.nextId + 1,
          log := (st.log ++ [SessEvent.factory s]) ++ r.events ++ [SessEvent.close s] })

/-- `TxMiddleware.dispatch` (`src/backend/middlewares/tx.py` lines 26 to
41): obtain the session, run the request, commit on success or roll back on
any exception (re-raising it), and in the `finally` block close the session
and reset the context. -/
def dispatch (callNext : Op α) (st : SessState) : Except String α × SessState :=
  let p := get_session st
  let r := callNext p.1
  match r.result with
  | Except.ok v =>
      (Except.ok v,
        { current := none, nextId := p.2.nextId,
          log := p.2.log ++ r.events ++ [SessEvent.commit p.1, SessEvent.close p.1] })
  | Except.error e =>
      (Except.error e,
        { current := none, nextId := p.2.nextId,
          log := p.2.log ++ r.events ++ [SessEvent.rollback p.1, SessEvent.close p.1] })

/-- Whether an event is a commit or a rollback. -/
def isCommitOrRollback : SessEvent → Bool
  | SessEvent.commit _ => true
  | SessEvent.rollback _ => true
  | _ => false

/-- Whether an event is the factory producing a session. -/
def isFactory : SessEvent → Bool
  | SessEvent.factory _ => true
  | _ => false

/-- Whether an event closes the session with handle `sid`. -/
def isClose (sid : Nat) : SessEvent → Bool
  | SessEvent.close s => s == sid
  | _ => false

/-- Number of factory invocations recorded in a log. -/
def factoryCount (l : List SessEvent) : Nat :=
  (l.filter isFactory).length

/-- Number of times the session `sid` is closed in a log. -/
def closeCount (sid : Nat) (l : List SessEvent) : Nat :=
  (l.filter (isClose sid)).length

/-- Iterated `get_session`: `getSessionIter k st` performs `k + 1`
successive calls and returns the result of the last one. -/
def getSessionIter : Nat → SessState → Nat × SessState
  | 0, st => get_session st
  | Nat.succ k, st => getSessionIter k (get_session st).2

/-- An operation that raises an exception without touching the session. -/
def opRaises : Op Nat := fun s => ⟨Except.error "boom", [], some s⟩

/-- An operation that returns normally without touching the session. -/
def opReturns : Op Nat := fun s => ⟨Except.ok 7, [], some s⟩

/-- A persisted row of the `users` table
(`src/backend/repositories/models/user.py` column set as used by both
repository revisions): generated identifier, username, email, password
hash, and the two timestamps.  Identifiers are modelled as naturals drawn
from a counter; timestamps as integers. -/
structure UserRow where
  user_uuid : Nat
  username : String
  email : String
  password_hash : String
  created_at : Int
  updated_at : Int

deriving instance DecidableEq for UserRow

/-- State of the user store: the persisted rows plus the source of fresh
identifiers. -/
structure DBState where
  rows : List UserRow
  nextUuid : Nat

deriving instance DecidableEq for DBState

/-- The INSERT .. ON CONFLICT (email) DO UPDATE .. RETURNING statement
executed by `UserRepository.save` (`src/backend/repositories/user.py`
lines 34 to 55): insert a new row, or, when a row with that email already
exists, update its `username`, `password_hash` and `updated_at`, leaving
`created_at` and the identifier unchanged; return the resulting row. -/
def upsertByEmail (db : DBState) (username password_hash email : String)
    (now : Int) : DBState × UserRow :=
  match db.rows.find? (fun r => r.email == email) with
  | some r =>
      (({ db with
          rows := db.rows.map (fun x =>
            if x.email == email then
              { x with username := username, password_hash := password_hash,
                       updated_at := now }
            else x) }),
        { r with username := username, password_hash := password_hash,
                 updated_at := now })
  | none =>
      ({ rows := db.rows ++
           [{ user_uuid := db.nextUuid, username := username, email := email,
              password_hash := password_hash, created_at := now,
              updated_at := now }],
         nextUuid := db.nextUuid + 1 },
       { user_uuid := db.nextUuid, username := username, email := email,
         password_hash := password_hash, created_at := now, updated_at := now })

/-- A value stored in one of the Python dicts the repository returns:
a string (`user_uuid`, `username`, `email`) or a datetime (`created_at`,
`updated_at`), modelled as an integer timestamp. -/
inductive Val where
  | s (v : String)
  | t (v : Int)

deriving instance DecidableEq for Val

/-- A Python dict with string keys, as returned by the repository. -/
def UserDict : Type := List (String × Val)

deriving instance DecidableEq for UserDict

/-- The dict literal both repository revisions build from a row
(`src/backend/repositories/user.py` lines 56 to 62 and 79 to 85):
exactly the keys `user_uuid`, `username`, `email`, `created_at`,
`updated_at` — and no `password_hash` key. -/
def userToDict (r : UserRow) : UserDict :=
  [("user_uuid", Val.s (toString r.user_uuid)),
   ("username", Val.s r.username),
   ("email", Val.s r.email),
   ("created_at", Val.t r.created_at),
   ("updated_at", Val.t r.updated_at)]

/-- Subscripting a Python dict: `d[k]` yields the value when the key is
present; `none` models the KeyError raised when it is absent. -/
def dictGet (d : UserDict) (k : String) : Option Val :=
  match d.find? (fun p => p.1 == k) with
  | some p => some p.2
  | none => none

/-- Truthiness of `Optional[dict]` in Python: `None` and the empty dict
are falsy, any non-empty dict is truthy.  Used by the `if existing_user:`
and `if not user:` tests in the auth service. -/
def truthy : Option UserDict → Bool
  | none => false
  | some d => !d.isEmpty

namespace UserRepository

/-- `UserRepository.save` (`src/backend/repositories/user.py` lines 20 to
64, identical in `src/repositories/user.py`): run the upsert and return the
dict of the persisted row, or return `None` when the storage layer raises
SQLAlchemyError (modelled by the `err` flag). -/
def save (err : Bool) (db : DBState) (username password_hash email : String)
    (now : Int) : Option (DBState × UserDict) :=
  if err then none
  else
    let p := upsertByEmail db username password_hash email now
    some (p.1, userToDict p.2)

/-- `UserRepository.get_by_username` (`src/backend/repositories/user.py`
lines 66 to 87, identical in `src/repositories/user.py`): point select by
username followed by `scalar_one_or_none()`.  With exactly one matching
row it returns that row's dict; with no matching row it returns `None`;
with two or more matching rows — reachable, since only `email` carries a
storage-level unique constraint — `scalar_one_or_none` raises
MultipleResultsFound, a SQLAlchemyError, which the except clause converts
to `None` as well.  Any other storage error (the `err` flag) also yields
`None`. -/
def get_by_username (err : Bool) (rows : List UserRow) (username : String) :
    Option UserDict :=
  if err then none
  else
    match rows.filter (fun r => r.username == username) with
    | [r] => some (userToDict r)
    | _ => none

end UserRepository

/-- Interface of the bcrypt library as the auth service relies on it
(an external collaborator, not code of this repository): `hashpw` hashes a
cleartext password with a salt, `checkpw` verifies a cleartext password
against a stored hash, accepting exactly the hashed password. -/
structure BCrypt where
  hashpw : String → String → String
  checkpw : String → String → Bool
  check_hashpw : ∀ password salt, checkpw password (hashpw password salt) = true
  check_hashpw_ne :
    ∀ password other salt, password ≠ other →
      checkpw other (hashpw password salt) = false

/-- A concrete instantiation of the bcrypt interface used to evaluate the
development on closed inputs. -/
def toyBcrypt : BCrypt where
  hashpw := fun password _ => password
  checkpw := fun password h => password == h
  check_hashpw := by
    intro password salt
    simp
  check_hashpw_ne := by
    intro password other salt hne
    simp
    exact fun h => hne h.symm

/-- The claim set serialized into a JWT by `AuthService.login`
(`src/backend/services/auth.py` lines 87 to 90): the identifier of the user
and the absolute expiry timestamp (seconds). -/
structure JwtPayload where
  user_uuid : String
  exp : Int

deriving instance DecidableEq for JwtPayload

/-- A signed token as produced by `jwt.encode(payload, secret,
algorithm)`: the payload together with the signing secret and algorithm.
The encoding is injective, so decoding recovers the payload. -/
structure JwtToken where
  payload : JwtPayload
  secret : String
  algorithm : String

deriving instance DecidableEq for JwtToken

/-- `jwt.encode` as used by the auth service. -/
def jwtEncode (p : JwtPayload) (secret algorithm : String) : JwtToken :=
  ⟨p, secret, algorithm⟩

/-- Decoding a token recovers its claim set. -/
def jwtDecode (t : JwtToken) : JwtPayload :=
  t.payload

/-- The observable outcome of `AuthService.login`: a token, one of the two
typed auth errors, or an unmodelled Python exception (`crashed` carries its
description). -/
inductive LoginOutcome where
  | ok (token : JwtToken)
  | userNotFound
  | invalidPassword
  | crashed (reason : String)

deriving instance DecidableEq for LoginOutcome

/-- The success payload of `AuthService.register` in
`src/services/auth.py` (`RegisterResponse` of `src/schemas/auth.py`): the
identifier, username, email and the two timestamps.  The schema declares no
password and no password-hash field. -/
structure RegisterResponse where
  user_uuid : String
  username : String
  email : String
  created_at : Int
  updated_at : Int

deriving instance DecidableEq for RegisterResponse

/-- `RegisterResponse(**user)`: building the response model from the dict
returned by the repository; `none` models the validation error raised when
a required key is missing or of the wrong type. -/
def respOfDict (d : UserDict) : Option RegisterResponse :=
  match dictGet d "user_uuid", dictGet d "username", dictGet d "email",
        dictGet d "created_at", dictGet d "updated_at" with
  | some (Val.s uid), some (Val.s un), some (Val.s em),
      some (Val.t ca), some (Val.t ua) =>
      some ⟨uid, un, em, ca, ua⟩
  | _, _, _, _, _ => none

/-- The projection of a persisted row onto the public response payload. -/
def publicOf (r : UserRow) : RegisterResponse :=
  ⟨toString r.user_uuid, r.username, r.email, r.created_at, r.updated_at⟩

/-- The observable outcome of `AuthService.register`: success with the
response payload, one of the typed failures (`UserAlreadyExistsError`, the
generic `AuthError` / HTTP 500), or an unmodelled Python exception. -/
inductive RegOutcome where
  | ok (resp : RegisterResponse)
  | userAlreadyExists
  | authError
  | crashed (reason : String)

deriving instance DecidableEq for RegOutcome

/-- The full observable effect of one `register` call: its outcome, the
resulting store state, and whether `UserRepository.save` was invoked. -/
structure RegResult where
  outcome : RegOutcome
  db : DBState
  saveCalled : Bool

deriving instance DecidableEq for RegResult

/-- The part of `AuthService.register` after the uniqueness check
(`src/backend/services/auth.py` lines 61 to 68, `src/services/auth.py`
lines 43 to 58): hash the password with a fresh salt, persist through
`UserRepository.save`, fail with the generic auth error when the store
returned `None`, and otherwise return the public payload of the persisted
row. -/
def registerSavePhase (B : BCrypt) (saveErr : Bool) (db : DBState)
    (salt : String) (now : Int) (username email password : String) :
    RegResult :=
  let password_hash := B.hashpw password salt
  match UserRepository.save saveErr db username password_hash email now with
  | none => ⟨RegOutcome.authError, db, true⟩
  | some (db1, d) =>
      match respOfDict d with
      | some resp => ⟨RegOutcome.ok resp, db1, true⟩
      | none => ⟨RegOutcome.crashed "RegisterResponse validation", db1, true⟩

/-- `AuthService.register` (`src/backend/services/auth.py` lines 47 to 68
and `src/services/auth.py` lines 33 to 58; both run the same logic, the
backend revision merely drops the payload): look up the username, fail with
`UserAlreadyExistsError` when the lookup yields a truthy value, and
otherwise hash and save.  `lookupErr` and `saveErr` say whether the storage
layer raises SQLAlchemyError inside the respective repository call; `salt`
is the fresh salt produced by `bcrypt.gensalt()`; `now` is the wall clock
reading of the call. -/
def register (B : BCrypt) (lookupErr saveErr : Bool) (db : DBState)
    (salt : String) (now : Int) (username email password : String) :
    RegResult :=
  if truthy (UserRepository.get_by_username lookupErr db.rows username) then
    ⟨RegOutcome.userAlreadyExists, db, false⟩
  else
    registerSavePhase B saveErr db salt now username email password

/-- `AuthService.login` (`src/backend/services/auth.py` lines 70 to 92 and
`src/services/auth.py` lines 60 to 83): look up the username, fail with
`UserNotFoundError` on a falsy result, verify the password against
`user["password_hash"]` — a dict subscript that raises KeyError when the
key is absent — fail with `InvalidPasswordError` on mismatch, and otherwise
issue a JWT whose claims are the identifier of the user and the expiry
`now + timedelta(minutes=jwt_expires_minutes)` (timestamps in seconds). -/
def login (B : BCrypt) (lookupErr : Bool) (db : DBState) (now : Int)
    (jwt_secret jwt_algorithm : String) (jwt_expires_minutes : Int)
    (username password : String) : LoginOutcome :=
  match UserRepository.get_by_username lookupErr db.rows username with
  | none => LoginOutcome.userNotFound
  | some d =>
      if d.isEmpty then LoginOutcome.userNotFound
      else
        match dictGet d "password_hash" with
        | none => LoginOutcome.crashed "KeyError password_hash"
        | some (Val.t _) => LoginOutcome.crashed "KeyError password_hash"
        | some (Val.s stored) =>
            if B.checkpw password stored then
              match dictGet d "user_uuid" with
              | none => LoginOutcome.crashed "KeyError user_uuid"
              | some (Val.t _) => LoginOutcome.crashed "KeyError user_uuid"
              | some (Val.s uid) =>
                  LoginOutcome.ok
                    (jwtEncode ⟨uid, now + 60 * jwt_expires_minutes⟩
                      jwt_secret jwt_algorithm)
            else LoginOutcome.invalidPassword

/-- The empty store. -/
def emptyDB : DBState := ⟨[], 0⟩

/-- A store holding one registered user named alice. -/
def aliceRow : UserRow :=
  ⟨0, "alice", "a@x.com", "Secr3t!", 100, 100⟩

/-- A session context at the start of a fresh unit of work. -/
def freshSess : SessState := ⟨none, 0, []⟩

theorem get_session_of_some {st : SessState} {s : Nat}
    (h : st.current = some s) : get_session st = (s, st) := by
  simp [get_session, h]

theorem getSessionIter_stable (k : Nat) {st : SessState} {s : Nat}
    (h : st.current = some s) : getSessionIter k st = (s, st) := by
  induction k with
  | zero => simp [getSessionIter, get_session, h]
  | succ n ih =>
      have hg : get_session st = (s, st) := get_session_of_some h
      simp [getSessionIter, hg, ih]

theorem factoryCount_append (l1 l2 : List SessEvent) :
    factoryCount (l1 ++ l2) = factoryCount l1 + factoryCount l2 := by
  simp [factoryCount, List.filter_append]

theorem closeCount_append (sid : Nat) (l1 l2 : List SessEvent) :
    closeCount sid (l1 ++ l2) = closeCount sid l1 + closeCount sid l2 := by
  simp [closeCount, List.filter_append]

theorem closeCount_factory (sid n : Nat) :
    closeCount sid [SessEvent.factory n] = 0 := rfl

theorem closeCount_commit (sid n : Nat) :
    closeCount sid [SessEvent.commit n] = 0 := rfl

theorem closeCount_rollback (sid n : Nat) :
    closeCount sid [SessEvent.rollback n] = 0 := rfl

theorem closeCount_close_self (sid : Nat) :
    closeCount sid [SessEvent.close sid] = 1 := by
  simp [closeCount, isClose]

/-- C5: within one unit of work every further `get_session()` call returns
the same handle as the first and the injected session factory fires exactly
once; after `reset()` the next `get_session()` fires the factory again and
returns a different, fresh handle. -/
theorem C5_idempotent_session_reuse (st : SessState) (k : Nat)
    (h : st.current = none) :
    getSessionIter k (get_session st).2 = get_session st
    ∧ factoryCount (get_session st).2.log = factoryCount st.log + 1
    ∧ (get_session (reset (get_session st).2)).1 ≠ (get_session st).1
    ∧ factoryCount (get_session (reset (get_session st).2)).2.log
        = factoryCount st.log + 2 := by
  have hgs : get_session st
      = (st.nextId,
         { current := some st.nextId, nextId := st.nextId + 1,
           log := st.log ++ [SessEvent.factory st.nextId] }) := by
    simp [get_session, h]
  refine ⟨?_, ?_, ?_, ?_⟩
  · rw [hgs]
    exact getSessionIter_stable k rfl
  · rw [hgs]
    simp [factoryCount_append, factoryCount, isFactory]
  · rw [hgs]
    simp [reset, get_session]
  · rw [hgs]
    simp [reset, get_session, factoryCount_append, factoryCount, isFactory]

/-- Witness for C5 at a concrete fresh context and four successive calls. -/
theorem C5_witness :
    freshSess.current = none
    ∧ (getSessionIter 3 (get_session freshSess).2 = get_session freshSess
       ∧ factoryCount (get_session freshSess).2.log
           = factoryCount freshSess.log + 1
       ∧ (get_session (reset (get_session freshSess).2)).1
           ≠ (get_session freshSess).1
       ∧ factoryCount (get_session (reset (get_session freshSess).2)).2.log
           = factoryCount freshSess.log + 2) :=
  ⟨rfl, C5_idempotent_session_reuse freshSess 3 rfl⟩

/-- C4: for any operation wrapped by the transaction decorator in a fresh
scope — whichever way it finishes, return or raise — the scope session is
closed exactly once, the ContextVar is detached afterwards, and a
subsequent `get_session` in a new unit of work yields a different handle;
the same close-once-and-detach discipline holds for the middleware. -/
theorem C4_transaction_cleanup {α : Type} (op : Op α) (st : SessState)
    (h : st.current = none)
    (hop : closeCount st.nextId (op st.nextId).events = 0) :
    closeCount st.nextId (transaction op st).2.log
      = closeCount st.nextId st.log + 1
    ∧ (transaction op st).2.current = none
    ∧ (get_session (transaction op st).2).1 ≠ st.nextId
    ∧ closeCount st.nextId (dispatch op st).2.log
      = closeCount st.nextId st.log + 1
    ∧ (dispatch op st).2.current = none := by
  have hgs : get_session st
      = (st.nextId,
         { current := some st.nextId, nextId := st.nextId + 1,
           log := st.log ++ [SessEvent.factory st.nextId] }) := by
    simp [get_session, h]
  have hlog : (transaction op st).2.log
      = (st.log ++ [SessEvent.factory st.nextId]) ++ (op st.nextId).events
          ++ [SessEvent.close st.nextId] := by
    simp [transaction, h]
  refine ⟨?_, ?_, ?_, ?_, ?_⟩
  · rw [hlog, closeCount_append, closeCount_append, closeCount_append,
      closeCount_factory, closeCount_close_self, hop]
  · simp [transaction, h]
  · simp [transaction, h, get_session]
  · unfold dispatch
    rw [hgs]
    cases hres : (op st.nextId).result with
    | ok v =>
        simp only [hres]
        rw [closeCount_append, closeCount_append, closeCount_append,
          closeCount_factory, hop]
        simp [closeCount, isClose]
    | error e =>
        simp only [hres]
        rw [closeCount_append, closeCount_append, closeCount_append,
          closeCount_factory, hop]
        simp [closeCount, isClose]
  · unfold dispatch
    rw [hgs]
    cases hres : (op st.nextId).result with
    | ok v => simp [hres]
    | error e => simp [hres]

/-- Witness for C4 at a concrete raising operation in a fresh scope. -/
theorem C4_witness :
    (freshSess.current = none
     ∧ closeCount freshSess.nextId (opRaises freshSess.nextId).events = 0)
    ∧ (closeCount freshSess.nextId (transaction opRaises freshSess).2.log
         = closeCount freshSess.nextId freshSess.log + 1
       ∧ (transaction opRaises freshSess).2.current = none
       ∧ (get_session (transaction opRaises freshSess).2).1 ≠ freshSess.nextId
       ∧ closeCount freshSess.nextId (dispatch opRaises freshSess).2.log
         = closeCount freshSess.nextId freshSess.log + 1
       ∧ (dispatch opRaises freshSess).2.current = none) :=
  ⟨⟨rfl, rfl⟩, C4_transaction_cleanup opRaises freshSess rfl rfl⟩

/-- C2, counterexample: a raising operation run under the `transaction`
decorator in a fresh scope propagates its exception, yet the final log
contains no rollback (and no commit) at all — the decorator never rolls the
session back, contradicting the claim that on a raise the session is rolled
back before the error propagates. -/
theorem C2_counterexample :
    (transaction opRaises freshSess).1 = Except.error "boom"
    ∧ (transaction opRaises freshSess).2.log
        = [SessEvent.factory 0, SessEvent.close 0]
    ∧ (transaction opRaises freshSess).2.log.filter isCommitOrRollback
        = [] :=
  ⟨rfl, rfl, rfl⟩

/-- C2, amended: when the wrapped operation raises, the `transaction`
decorator propagates the exception unchanged and only detaches and closes
its session — it performs no rollback; the rollback on failure is performed
by `TxMiddleware.dispatch`, which rolls back and then closes before
re-raising.  The error is never swallowed at either layer. -/
theorem C2_failure_semantics {α : Type} (op : Op α) (st : SessState)
    (e : String) (h : st.current = none)
    (hraise : (op st.nextId).result = Except.error e) :
    (transaction op st).1 = Except.error e
    ∧ (transaction op st).2.log
        = (st.log ++ [SessEvent.factory st.nextId]) ++ (op st.nextId).events
            ++ [SessEvent.close st.nextId]
    ∧ (dispatch op st).1 = Except.error e
    ∧ (dispatch op st).2.log
        = (st.log ++ [SessEvent.factory st.nextId]) ++ (op st.nextId).events
            ++ [SessEvent.rollback st.nextId, SessEvent.close st.nextId] := by
  have hgs : get_session st
      = (st.nextId,
         { current := some st.nextId, nextId := st.nextId + 1,
           log := st.log ++ [SessEvent.factory st.nextId] }) := by
    simp [get_session, h]
  refine ⟨?_, ?_, ?_, ?_⟩
  · simp [transaction, h, hraise]
  · simp [transaction, h]
  · unfold dispatch
    rw [hgs]
    simp [hraise]
  · unfold dispatch
    rw [hgs]
    simp [hraise]

/-- Witness for the amended C2 at a concrete raising operation. -/
theorem C2_witness :
    (freshSess.current = none
     ∧ (opRaises freshSess.nextId).result = Except.error "boom")
    ∧ ((transaction opRaises freshSess).1 = Except.error "boom"
       ∧ (transaction opRaises freshSess).2.log
           = (freshSess.log ++ [SessEvent.factory freshSess.nextId])
               ++ (opRaises freshSess.nextId).events
               ++ [SessEvent.close freshSess.nextId]
       ∧ (dispatch opRaises freshSess).1 = Except.error "boom"
       ∧ (dispatch opRaises freshSess).2.log
           = (freshSess.log ++ [SessEvent.factory freshSess.nextId])
               ++ (opRaises freshSess.nextId).events
               ++ [SessEvent.rollback freshSess.nextId,
                   SessEvent.close freshSess.nextId]) :=
  ⟨⟨rfl, rfl⟩, C2_failure_semantics opRaises freshSess "boom" rfl rfl⟩

/-- C10: the `transaction` decorator itself issues no commit and no
rollback — in a fresh scope the final log is exactly the initial log plus
the factory event, the events of the operation, and one close; hence every
commit or rollback present in the end came from the initial log or from the
operation, and the ContextVar is left detached. -/
theorem C10_decorator_never_commits {α : Type} (op : Op α) (st : SessState)
    (h : st.current = none) :
    (transaction op st).2.log
      = (st.log ++ [SessEvent.factory st.nextId]) ++ (op st.nextId).events
          ++ [SessEvent.close st.nextId]
    ∧ (transaction op st).2.log.filter isCommitOrRollback
      = (st.log ++ (op st.nextId).events).filter isCommitOrRollback
    ∧ (transaction op st).2.current = none := by
  refine ⟨?_, ?_, ?_⟩
  · simp [transaction, h]
  · simp [transaction, h, List.filter_append, isCommitOrRollback]
  · simp [transaction, h]

/-- Witness for C10 at a concrete returning operation. -/
theorem C10_witness :
    freshSess.current = none
    ∧ ((transaction opReturns freshSess).2.log
         = (freshSess.log ++ [SessEvent.factory freshSess.nextId])
             ++ (opReturns freshSess.nextId).events
             ++ [SessEvent.close freshSess.nextId]
       ∧ (transaction opReturns freshSess).2.log.filter isCommitOrRollback
         = (freshSess.log ++ (opReturns freshSess.nextId).events).filter
             isCommitOrRollback
       ∧ (transaction opReturns freshSess).2.current = none) :=
  ⟨rfl, C10_decorator_never_commits opReturns freshSess rfl⟩

theorem respOfDict_userToDict (r : UserRow) :
    respOfDict (userToDict r) = some (publicOf r) := rfl

theorem truthy_userToDict (r : UserRow) :
    truthy (some (userToDict r)) = true := rfl

theorem registerSavePhase_saveCalled (B : BCrypt) (saveErr : Bool)
    (db : DBState) (salt : String) (now : Int)
    (username email password : String) :
    (registerSavePhase B saveErr db salt now username email password).saveCalled
      = true := by
  unfold registerSavePhase UserRepository.save
  cases saveErr with
  | true => rfl
  | false => simp [respOfDict_userToDict]

/-- C3, counterexample: with the store actually holding a user named
alice, a persistence-layer error during `get_by_username` produces exactly
the same value (`None`) as an error-free lookup of alice in an empty store
— the failure outcome and the not-found outcome coincide, contradicting
the claim that they are never the same value. -/
theorem C3_counterexample :
    UserRepository.get_by_username true [aliceRow] "alice"
      = UserRepository.get_by_username false [] "alice"
    ∧ UserRepository.get_by_username true [aliceRow] "alice" = none :=
  ⟨rfl, rfl⟩

/-- C3, amended: `get_by_username` has only two distinguishable outcomes —
the dict of the row when exactly one row carries the username, and `None`
otherwise.  `None` is returned alike when no row matches, when two or more
rows match (`scalar_one_or_none` raises MultipleResultsFound, caught by
the SQLAlchemyError handler), and when the persistence layer errors, so
the caller can distinguish none of these cases. -/
theorem C3_two_outcomes (rows : List UserRow) (username : String) :
    UserRepository.get_by_username true rows username = none
    ∧ ((rows.filter (fun r => r.username == username)).length ≠ 1 →
        UserRepository.get_by_username false rows username = none)
    ∧ ∀ r : UserRow, rows.filter (fun x => x.username == username) = [r] →
        UserRepository.get_by_username false rows username
          = some (userToDict r) := by
  refine ⟨rfl, ?_, ?_⟩
  · intro hlen
    unfold UserRepository.get_by_username
    cases hf : rows.filter (fun r => r.username == username) with
    | nil => simp [hf]
    | cons r1 t =>
        cases t with
        | nil => exact absurd (by rw [hf]; rfl) hlen
        | cons r2 t2 => simp [hf]
  · intro r hf
    unfold UserRepository.get_by_username
    simp [hf]

/-- A second persisted row also named alice, under a different email —
reachable because only `email` is storage-unique (for instance through the
masked-lookup path of C9). -/
def aliceRow2 : UserRow :=
  ⟨1, "alice", "b@x.com", "h2", 5, 5⟩

/-- Witness for the amended C3: the error case, the duplicate-username
case (two alice rows yield `None` despite matching rows existing) and the
exactly-one-row case, each at a concrete store. -/
theorem C3_witness :
    UserRepository.get_by_username true [aliceRow] "alice" = none
    ∧ UserRepository.get_by_username false [aliceRow, aliceRow2] "alice"
        = none
    ∧ UserRepository.get_by_username false [aliceRow] "alice"
        = some (userToDict aliceRow) :=
  ⟨(C3_two_outcomes [aliceRow] "alice").1,
   (C3_two_outcomes [aliceRow, aliceRow2] "alice").2.1 (by decide),
   (C3_two_outcomes [aliceRow] "alice").2.2 aliceRow (by decide)⟩

/-- A store holding both alice rows — two persisted users with the same
username under different emails. -/
def dbDup : DBState := ⟨[aliceRow, aliceRow2], 2⟩

/-- C6, counterexample: on a store that already holds two users named
alice (reachable, since only `email` is storage-unique), an error-free
register of that same username does not fail with `UserAlreadyExistsError`
and does write: `scalar_one_or_none` raises MultipleResultsFound, the
repository returns `None`, so register saves a third row — the claim fails
at this store state. -/
theorem C6_counterexample :
    (∃ r ∈ dbDup.rows, r.username = "alice")
    ∧ (register toyBcrypt false false dbDup "s" 5 "alice" "c@x.com"
        "pw").outcome
      = RegOutcome.ok ⟨"2", "alice", "c@x.com", 5, 5⟩
    ∧ (register toyBcrypt false false dbDup "s" 5 "alice" "c@x.com"
        "pw").saveCalled = true
    ∧ (register toyBcrypt false false dbDup "s" 5 "alice" "c@x.com"
        "pw").db.rows.length = 3 :=
  ⟨⟨aliceRow, by decide, rfl⟩, rfl, rfl, rfl⟩

/-- C6, amended: when exactly one persisted row carries the requested
username and the uniqueness lookup is error-free, `register` fails with
`UserAlreadyExistsError`, leaves the store unchanged, and never invokes
`UserRepository.save`; when two or more rows carry the username, the
lookup collapses to `None` (MultipleResultsFound is caught) and register
proceeds to the hash-and-save phase instead. -/
theorem C6_registration_uniqueness (B : BCrypt) (saveErr : Bool)
    (db : DBState) (salt : String) (now : Int)
    (username email password : String) (r : UserRow)
    (h : db.rows.filter (fun x => x.username == username) = [r]) :
    register B false saveErr db salt now username email password
      = ⟨RegOutcome.userAlreadyExists, db, false⟩
    ∧ ∀ db2 : DBState,
        2 ≤ (db2.rows.filter (fun x => x.username == username)).length →
        register B false saveErr db2 salt now username email password
          = registerSavePhase B saveErr db2 salt now username email
              password := by
  constructor
  · simp [register, UserRepository.get_by_username, h, truthy, userToDict]
  · intro db2 hlen
    cases hf : db2.rows.filter (fun x => x.username == username) with
    | nil =>
        rw [hf] at hlen
        simp at hlen
    | cons r1 t =>
        cases t with
        | nil =>
            rw [hf] at hlen
            simp at hlen
        | cons r2 t2 =>
            simp [register, UserRepository.get_by_username, hf, truthy]

/-- Witness for the amended C6: registering alice again on a store holding
exactly one alice. -/
theorem C6_witness :
    (⟨[aliceRow], 1⟩ : DBState).rows.filter (fun x => x.username == "alice")
      = [aliceRow]
    ∧ (register toyBcrypt false false ⟨[aliceRow], 1⟩ "s" 5 "alice"
         "b@x.com" "pw"
         = ⟨RegOutcome.userAlreadyExists, ⟨[aliceRow], 1⟩, false⟩
       ∧ ∀ db2 : DBState,
           2 ≤ (db2.rows.filter (fun x => x.username == "alice")).length →
           register toyBcrypt false false db2 "s" 5 "alice" "b@x.com" "pw"
             = registerSavePhase toyBcrypt false db2 "s" 5 "alice" "b@x.com"
                 "pw") :=
  ⟨rfl,
   C6_registration_uniqueness toyBcrypt false ⟨[aliceRow], 1⟩ "s" 5 "alice"
     "b@x.com" "pw" aliceRow rfl⟩

/-- C9: when the uniqueness lookup inside `register` hits a
persistence-layer error, the repository reports it as `None` — the same
value as user-not-found — so `register`, even on a store that does hold a
user with that username, does not fail with `UserAlreadyExistsError` but
proceeds to hash and save, exactly the code path taken when the username
is free. -/
theorem C9_lookup_error_masks_conflict (B : BCrypt) (saveErr : Bool)
    (db : DBState) (salt : String) (now : Int)
    (username email password : String)
    (h : ∃ r ∈ db.rows, r.username = username) :
    UserRepository.get_by_username true db.rows username = none
    ∧ register B true saveErr db salt now username email password
        = registerSavePhase B saveErr db salt now username email password
    ∧ (register B true saveErr db salt now username email
        password).saveCalled = true
    ∧ ∀ dbF : DBState, (∀ r ∈ dbF.rows, r.username ≠ username) →
        register B false saveErr dbF salt now username email password
          = registerSavePhase B saveErr dbF salt now username email
              password := by
  have hreg : register B true saveErr db salt now username email password
      = registerSavePhase B saveErr db salt now username email password := by
    simp [register, UserRepository.get_by_username, truthy]
  refine ⟨rfl, hreg, ?_, ?_⟩
  · rw [hreg]
    exact registerSavePhase_saveCalled B saveErr db salt now username email
      password
  · intro dbF hF
    have hf : dbF.rows.filter (fun x => x.username == username) = [] :=
      List.filter_eq_nil_iff.mpr (fun x hx => by simp [hF x hx])
    simp [register, UserRepository.get_by_username, hf, truthy]

/-- Witness for C9: an errored lookup on a store holding alice. -/
theorem C9_witness :
    (∃ r ∈ [aliceRow], r.username = "alice")
    ∧ (UserRepository.get_by_username true [aliceRow] "alice" = none
       ∧ register toyBcrypt true false ⟨[aliceRow], 1⟩ "s" 5 "alice"
           "b@x.com" "pw"
         = registerSavePhase toyBcrypt false ⟨[aliceRow], 1⟩ "s" 5 "alice"
             "b@x.com" "pw"
       ∧ (register toyBcrypt true false ⟨[aliceRow], 1⟩ "s" 5 "alice"
           "b@x.com" "pw").saveCalled = true
       ∧ ∀ dbF : DBState, (∀ r ∈ dbF.rows, r.username ≠ "alice") →
           register toyBcrypt false false dbF "s" 5 "alice" "b@x.com" "pw"
             = registerSavePhase toyBcrypt false dbF "s" 5 "alice" "b@x.com"
                 "pw") :=
  ⟨⟨aliceRow, by simp, rfl⟩,
   C9_lookup_error_masks_conflict toyBcrypt false ⟨[aliceRow], 1⟩ "s" 5
     "alice" "b@x.com" "pw" ⟨aliceRow, by simp, rfl⟩⟩

theorem filter_map_skip (email : String) (f : UserRow → UserRow)
    (l : List UserRow)
    (hl : ∀ x ∈ l, (x.email == email) = false)
    (hf : ∀ x, (x.email == email) = false → f x = x) :
    (l.map f).filter (fun x => x.email == email) = [] := by
  induction l with
  | nil => rfl
  | cons a t ih =>
      have ha := hl a (by simp)
      have ht : ∀ x ∈ t, (x.email == email) = false := fun x hx =>
        hl x (by simp [hx])
      simp [List.map_cons, List.filter_cons, hf a ha, ha, ih ht]

/-- C7: starting from a store with no row for the given email, two
`UserRepository.save` calls with that email and different usernames leave
exactly one persisted row for the email; its `username`, `password_hash`
and `updated_at` come from the second call, while its `created_at` and its
identifier are the ones assigned by the first call. -/
theorem C7_upsert_convergence (db : DBState) (u1 u2 pw1 pw2 email : String)
    (t1 t2 : Int)
    (hfree : db.rows.find? (fun r => r.email == email) = none) :
    UserRepository.save false db u1 pw1 email t1
      = some ((upsertByEmail db u1 pw1 email t1).1,
              userToDict (upsertByEmail db u1 pw1 email t1).2)
    ∧ UserRepository.save false (upsertByEmail db u1 pw1 email t1).1 u2 pw2
        email t2
      = some ((upsertByEmail (upsertByEmail db u1 pw1 email t1).1 u2 pw2
                 email t2).1,
              userToDict (upsertByEmail (upsertByEmail db u1 pw1 email t1).1
                 u2 pw2 email t2).2)
    ∧ (upsertByEmail (upsertByEmail db u1 pw1 email t1).1 u2 pw2 email
        t2).1.rows.filter (fun x => x.email == email)
      = [(upsertByEmail (upsertByEmail db u1 pw1 email t1).1 u2 pw2 email
           t2).2]
    ∧ (upsertByEmail (upsertByEmail db u1 pw1 email t1).1 u2 pw2 email
        t2).2.username = u2
    ∧ (upsertByEmail (upsertByEmail db u1 pw1 email t1).1 u2 pw2 email
        t2).2.password_hash = pw2
    ∧ (upsertByEmail (upsertByEmail db u1 pw1 email t1).1 u2 pw2 email
        t2).2.updated_at = t2
    ∧ (upsertByEmail (upsertByEmail db u1 pw1 email t1).1 u2 pw2 email
        t2).2.created_at = t1
    ∧ (upsertByEmail (upsertByEmail db u1 pw1 email t1).1 u2 pw2 email
        t2).2.user_uuid = db.nextUuid
    ∧ (upsertByEmail db u1 pw1 email t1).2.user_uuid = db.nextUuid := by
  have hall : ∀ x ∈ db.rows, (x.email == email) = false := by
    intro x hx
    simpa using List.find?_eq_none.mp hfree x hx
  have hs1 : upsertByEmail db u1 pw1 email t1
      = (⟨db.rows ++ [⟨db.nextUuid, u1, email, pw1, t1, t1⟩],
          db.nextUuid + 1⟩,
         ⟨db.nextUuid, u1, email, pw1, t1, t1⟩) := by
    unfold upsertByEmail
    rw [hfree]
  have hfind2 : (db.rows
        ++ [(⟨db.nextUuid, u1, email, pw1, t1, t1⟩ : UserRow)]).find?
        (fun r => r.email == email)
      = some ⟨db.nextUuid, u1, email, pw1, t1, t1⟩ := by
    rw [List.find?_append, hfree]
    simp
  have hs2 : upsertByEmail
      (⟨db.rows ++ [⟨db.nextUuid, u1, email, pw1, t1, t1⟩],
        db.nextUuid + 1⟩ : DBState) u2 pw2 email t2
      = (⟨(db.rows ++ [(⟨db.nextUuid, u1, email, pw1, t1, t1⟩ : UserRow)]).map
            (fun (x : UserRow) => if x.email == email then
               { x with username := u2, password_hash := pw2,
                        updated_at := t2 }
             else x),
          db.nextUuid + 1⟩,
         (⟨db.nextUuid, u2, email, pw2, t1, t2⟩ : UserRow)) := by
    unfold upsertByEmail
    rw [hfind2]
  refine ⟨rfl, rfl, ?_, ?_, ?_, ?_, ?_, ?_, ?_⟩
  · rw [hs1, hs2]
    rw [List.map_append, List.filter_append,
      filter_map_skip email _ db.rows hall (fun x hx => by simp [hx])]
    simp
  · rw [hs1, hs2]
  · rw [hs1, hs2]
  · rw [hs1, hs2]
  · rw [hs1, hs2]
  · rw [hs1, hs2]
  · rw [hs1]

/-- Witness for C7: saving alice and then bob under the same email on an
empty store. -/
theorem C7_witness :
    emptyDB.rows.find? (fun r => r.email == "a@x.com") = none
    ∧ (UserRepository.save false emptyDB "alice" "h1" "a@x.com" 1
         = some ((upsertByEmail emptyDB "alice" "h1" "a@x.com" 1).1,
                 userToDict (upsertByEmail emptyDB "alice" "h1" "a@x.com" 1).2)
       ∧ UserRepository.save false
           (upsertByEmail emptyDB "alice" "h1" "a@x.com" 1).1 "bob" "h2"
           "a@x.com" 2
         = some ((upsertByEmail (upsertByEmail emptyDB "alice" "h1" "a@x.com"
                    1).1 "bob" "h2" "a@x.com" 2).1,
                 userToDict (upsertByEmail (upsertByEmail emptyDB "alice"
                    "h1" "a@x.com" 1).1 "bob" "h2" "a@x.com" 2).2)
       ∧ (upsertByEmail (upsertByEmail emptyDB "alice" "h1" "a@x.com" 1).1
            "bob" "h2" "a@x.com" 2).1.rows.filter
            (fun x => x.email == "a@x.com")
         = [(upsertByEmail (upsertByEmail emptyDB "alice" "h1" "a@x.com"
              1).1 "bob" "h2" "a@x.com" 2).2]
       ∧ (upsertByEmail (upsertByEmail emptyDB "alice" "h1" "a@x.com" 1).1
            "bob" "h2" "a@x.com" 2).2.username = "bob"
       ∧ (upsertByEmail (upsertByEmail emptyDB "alice" "h1" "a@x.com" 1).1
            "bob" "h2" "a@x.com" 2).2.password_hash = "h2"
       ∧ (upsertByEmail (upsertByEmail emptyDB "alice" "h1" "a@x.com" 1).1
            "bob" "h2" "a@x.com" 2).2.updated_at = 2
       ∧ (upsertByEmail (upsertByEmail emptyDB "alice" "h1" "a@x.com" 1).1
            "bob" "h2" "a@x.com" 2).2.created_at = 1
       ∧ (upsertByEmail (upsertByEmail emptyDB "alice" "h1" "a@x.com" 1).1
            "bob" "h2" "a@x.com" 2).2.user_uuid = emptyDB.nextUuid
       ∧ (upsertByEmail emptyDB "alice" "h1" "a@x.com" 1).2.user_uuid
         = emptyDB.nextUuid) :=
  ⟨rfl, C7_upsert_convergence emptyDB "alice" "bob" "h1" "h2" "a@x.com" 1 2
    rfl⟩

/-- C8: whenever `register` succeeds, the returned payload is exactly the
public projection of the persisted row — identifier, username, email and
the two timestamps — and that projection is invariant under any change of
the password hash, so no password or hash field can reach the payload. -/
theorem C8_no_hash_in_payload (B : BCrypt) (lookupErr saveErr : Bool)
    (db : DBState) (salt : String) (now : Int)
    (username email password : String) (resp : RegisterResponse)
    (h : (register B lookupErr saveErr db salt now username email
           password).outcome = RegOutcome.ok resp) :
    resp = publicOf
        (upsertByEmail db username (B.hashpw password salt) email now).2
    ∧ ∀ (r : UserRow) (hsh : String),
        publicOf { r with password_hash := hsh } = publicOf r := by
  refine ⟨?_, fun r hsh => rfl⟩
  unfold register at h
  cases htr : truthy (UserRepository.get_by_username lookupErr db.rows
      username) with
  | true => simp [htr] at h
  | false =>
      simp only [htr, Bool.false_eq_true, if_false] at h
      unfold registerSavePhase UserRepository.save at h
      cases saveErr with
      | true => simp at h
      | false =>
          simp [respOfDict_userToDict] at h
          exact h.symm

/-- Witness for C8 at a concrete successful registration. -/
theorem C8_witness :
    (register toyBcrypt false false emptyDB "salt" 100 "alice" "a@x.com"
       "pw").outcome = RegOutcome.ok ⟨"0", "alice", "a@x.com", 100, 100⟩
    ∧ ((⟨"0", "alice", "a@x.com", 100, 100⟩ : RegisterResponse)
         = publicOf (upsertByEmail emptyDB "alice"
             (toyBcrypt.hashpw "pw" "salt") "a@x.com" 100).2
       ∧ ∀ (r : UserRow) (hsh : String),
           publicOf { r with password_hash := hsh } = publicOf r) :=
  ⟨rfl, C8_no_hash_in_payload toyBcrypt false false emptyDB "salt" 100
    "alice" "a@x.com" "pw" ⟨"0", "alice", "a@x.com", 100, 100⟩ rfl⟩

/-- C1: the login round trip is broken in the code.  Registering alice
succeeds, but the subsequent login — with the correct password as well as
with a wrong one — reaches `user["password_hash"]` on a repository dict
that has no such key and dies with a KeyError instead of returning a token
or `InvalidPasswordError`.  In general, for every store state and every
input, `login` either reports the user as not found or crashes on that
KeyError: it can never return a token and never raises
`InvalidPasswordError`, because both repository revisions omit
`password_hash` from the dict they return. -/
theorem C1_login_round_trip_broken :
    (register toyBcrypt false false emptyDB "salt" 100 "alice" "a@x.com"
       "Secr3t!").outcome
      = RegOutcome.ok ⟨"0", "alice", "a@x.com", 100, 100⟩
    ∧ login toyBcrypt false
        (register toyBcrypt false false emptyDB "salt" 100 "alice" "a@x.com"
          "Secr3t!").db 200 "secret_jwt" "HS256" 1440 "alice" "Secr3t!"
      = LoginOutcome.crashed "KeyError password_hash"
    ∧ login toyBcrypt false
        (register toyBcrypt false false emptyDB "salt" 100 "alice" "a@x.com"
          "Secr3t!").db 200 "secret_jwt" "HS256" 1440 "alice" "wrong"
      = LoginOutcome.crashed "KeyError password_hash"
    ∧ ∀ (B : BCrypt) (lookupErr : Bool) (db : DBState) (now : Int)
        (sec alg : String) (em : Int) (u p : String),
        login B lookupErr db now sec alg em u p = LoginOutcome.userNotFound
        ∨ login B lookupErr db now sec alg em u p
            = LoginOutcome.crashed "KeyError password_hash" := by
  refine ⟨rfl, rfl, rfl, ?_⟩
  intro B lookupErr db now sec alg em u p
  cases lookupErr with
  | true =>
      left
      rfl
  | false =>
      cases hf : db.rows.filter (fun r => r.username == u) with
      | nil =>
          left
          simp [login, UserRepository.get_by_username, hf]
      | cons r t =>
          cases t with
          | nil =>
              right
              simp [login, UserRepository.get_by_username, hf, userToDict,
                dictGet]
          | cons r2 t2 =>
              left
              simp [login, UserRepository.get_by_username, hf]
